import Mathlib

/-!
Shallow embedding of the neural-network module definitions in `networks.py`
of the F0-DCTTS repository.

Tensors of shape (N, C, T) — batch, channel, time — are embedded as functions
`Fin N → Fin C → Fin T → ℝ`: real-valued semantics of the floating-point
tensors.  Framework primitives (`torch.softmax`, `torch.bmm`, `transpose`,
`torch.tanh`, `torch.sigmoid`, `torch.relu`, `nn.Upsample`, `chunk`) are
embedded by their documented mathematical meaning.  The layer classes from
`layers.py` and `modules.py` (`Conv1d`, `HighwayConv1d`, `CausalConv1d`,
`CausalHighwayConv1d`, `CustomConv1d`, `ResidualBlock1d`) are not part of the
sources at hand and are modelled from the specification's description of them
(convolutions, highway layers, causal convolutions, residual blocks).
`weight_norm` is a reparametrisation of a layer's weight tensor and does not
change the class of functions a layer computes; weights here are arbitrary
reals, so it is the identity at this level of modelling.
-/

noncomputable section

/-- A rank-3 tensor of shape (N, C, T): batch, channel, time. -/
def Tensor3 (N C T : ℕ) : Type := Fin N → Fin C → Fin T → ℝ

variable {N C T Ci Co Tx Ty : ℕ}

/-- Elementwise application of a scalar function, as in `torch.tanh(x)`,
`torch.sigmoid(x)` or an elementwise division. -/
def map3 (f : ℝ → ℝ) (x : Tensor3 N C T) : Tensor3 N C T :=
  fun n c t => f (x n c t)

/-- `torch.bmm`: batched matrix product, (N, A, B) x (N, B, D) -> (N, A, D). -/
def bmm {A B D : ℕ} (x : Tensor3 N A B) (y : Tensor3 N B D) : Tensor3 N A D :=
  fun n a d => ∑ b : Fin B, x n a b * y n b d

/-- `x.transpose(1, 2)`: swap the channel and time axes. -/
def transpose12 (x : Tensor3 N C T) : Tensor3 N T C :=
  fun n t c => x n c t

/-- `torch.softmax(s, dim=1)` on a tensor of shape (N, Tx, Ty): normalised
exponentials along axis 1. -/
def softmax1 (s : Tensor3 N Tx Ty) : Tensor3 N Tx Ty :=
  fun n i j => Real.exp (s n i j) / ∑ k : Fin Tx, Real.exp (s n k j)

/-- `torch.relu`. -/
def relu (r : ℝ) : ℝ := max r 0

/-- `torch.sigmoid`. -/
def sigmoid (r : ℝ) : ℝ := 1 / (1 + Real.exp (-r))

/-- `y.chunk(2, dim=1)`, first chunk: the first ⌈d/2⌉ channels. -/
def chunk2Fst {d : ℕ} (x : Tensor3 N d T) : Tensor3 N ((d + 1) / 2) T :=
  fun n c t => x n ⟨(c : ℕ), by have := c.isLt; omega⟩ t

/-- `y.chunk(2, dim=1)`, second chunk: the remaining channels. -/
def chunk2Snd {d : ℕ} (x : Tensor3 N d T) : Tensor3 N (d - (d + 1) / 2) T :=
  fun n c t => x n ⟨(d + 1) / 2 + (c : ℕ), by have := c.isLt; omega⟩ t

/-- `nn.Upsample(scale_factor=2, mode='nearest')` on a (N, C, T) tensor:
output time step t reads input time step t / 2. -/
def upsampleNearest2 (x : Tensor3 N C T) : Tensor3 N C (2 * T) :=
  fun n c t => x n c ⟨(t : ℕ) / 2, by have := t.isLt; omega⟩

/-- Modelled from the spec: the raw causal 1-D dilated convolution underlying
`CausalConv1d` and `CausalHighwayConv1d` of `layers.py` (not among the sources):
the output at time t is an affine function of the inputs at times
t, t - dil, ..., t - (k-1)*dil only (left zero padding). -/
def causalConvRaw (k dil : ℕ) (W : Fin Co → Fin Ci → Fin k → ℝ)
    (b : Fin Co → ℝ) (x : Tensor3 N Ci T) : Tensor3 N Co T :=
  fun n c t =>
    (∑ i : Fin Ci, ∑ j : Fin k,
      if (j : ℕ) * dil ≤ (t : ℕ) then
        W c i j * x n i ⟨(t : ℕ) - (j : ℕ) * dil,
          lt_of_le_of_lt (Nat.sub_le _ _) t.isLt⟩
      else 0) + b c

/-- Modelled from the spec: the raw 'same'-padded 1-D dilated convolution
underlying `Conv1d` and `HighwayConv1d` of `layers.py` (not among the
sources): zero padding of dil*(k-1)/2 on the left, so the output has the
input's time length. -/
def samePadConvRaw (k dil : ℕ) (W : Fin Co → Fin Ci → Fin k → ℝ)
    (b : Fin Co → ℝ) (x : Tensor3 N Ci T) : Tensor3 N Co T :=
  fun n c t =>
    (∑ i : Fin Ci, ∑ j : Fin k,
      if h : dil * (k - 1) / 2 ≤ (t : ℕ) + (j : ℕ) * dil ∧
          (t : ℕ) + (j : ℕ) * dil - dil * (k - 1) / 2 < T then
        W c i j * x n i ⟨(t : ℕ) + (j : ℕ) * dil - dil * (k - 1) / 2, h.2⟩
      else 0) + b c

/-- Modelled from the spec: `CustomConv1d(d_in, d_out, 1)` of `layers.py`
(not among the sources), a kernel-size-1 convolution: a pointwise-in-time
linear map over channels with a bias. -/
structure CustomConv1d (d_in d_out : ℕ) where
  weight : Fin d_out → Fin d_in → ℝ
  bias : Fin d_out → ℝ

/-- Forward pass of the modelled `CustomConv1d`. -/
def CustomConv1d.forward {d_in d_out : ℕ} (m : CustomConv1d d_in d_out)
    (x : Tensor3 N d_in T) : Tensor3 N d_out T :=
  fun n c t => (∑ i : Fin d_in, m.weight c i * x n i t) + m.bias c

/-- Modelled from the spec: `Conv1d` of `layers.py` (not among the sources),
a 'same'-padded convolution; weights only, dilation and activation are applied
at the call site as in the source's constructor arguments. -/
structure Conv1d (d_in d_out k : ℕ) where
  weight : Fin d_out → Fin d_in → Fin k → ℝ
  bias : Fin d_out → ℝ

/-- Forward pass of the modelled `Conv1d` with dilation `dil` and activation
`act` (the identity stands for `activation_fn=None`). -/
def Conv1d.forward {d_in d_out k : ℕ} (m : Conv1d d_in d_out k)
    (dil : ℕ) (act : ℝ → ℝ) (x : Tensor3 N d_in T) : Tensor3 N d_out T :=
  fun n c t => act (samePadConvRaw k dil m.weight m.bias x n c t)

/-- Modelled from the spec: `HighwayConv1d` of `layers.py` (not among the
sources), a gated ('highway') 'same'-padded convolution of equal input and
output widths: a convolution with 2d output channels is split into a gate
half H1 and a transform half H2, and the output mixes H2 with the input
through the sigmoid of H1. -/
structure HighwayConv1d (d k : ℕ) where
  weightH1 : Fin d → Fin d → Fin k → ℝ
  weightH2 : Fin d → Fin d → Fin k → ℝ
  biasH1 : Fin d → ℝ
  biasH2 : Fin d → ℝ

/-- Forward pass of the modelled `HighwayConv1d` with dilation `dil`. -/
def HighwayConv1d.forward {d k : ℕ} (m : HighwayConv1d d k) (dil : ℕ)
    (x : Tensor3 N d T) : Tensor3 N d T :=
  fun n c t =>
    sigmoid (samePadConvRaw k dil m.weightH1 m.biasH1 x n c t) *
        samePadConvRaw k dil m.weightH2 m.biasH2 x n c t +
      (1 - sigmoid (samePadConvRaw k dil m.weightH1 m.biasH1 x n c t)) * x n c t

/-- Modelled from the spec: `CausalConv1d` of `layers.py` (not among the
sources), the causal (left-padded) convolution used by the audio encoder and
decoder. -/
structure CausalConv1d (d_in d_out k : ℕ) where
  weight : Fin d_out → Fin d_in → Fin k → ℝ
  bias : Fin d_out → ℝ

/-- Forward pass of the modelled `CausalConv1d` with dilation `dil` and
activation `act`. -/
def CausalConv1d.forward {d_in d_out k : ℕ} (m : CausalConv1d d_in d_out k)
    (dil : ℕ) (act : ℝ → ℝ) (x : Tensor3 N d_in T) : Tensor3 N d_out T :=
  fun n c t => act (causalConvRaw k dil m.weight m.bias x n c t)

/-- Modelled from the spec: `CausalHighwayConv1d` of `layers.py` (not among
the sources), the causal gated convolution used by the audio encoder and
decoder. -/
structure CausalHighwayConv1d (d k : ℕ) where
  weightH1 : Fin d → Fin d → Fin k → ℝ
  weightH2 : Fin d → Fin d → Fin k → ℝ
  biasH1 : Fin d → ℝ
  biasH2 : Fin d → ℝ

/-- Forward pass of the modelled `CausalHighwayConv1d` with dilation `dil`. -/
def CausalHighwayConv1d.forward {d k : ℕ} (m : CausalHighwayConv1d d k)
    (dil : ℕ) (x : Tensor3 N d T) : Tensor3 N d T :=
  fun n c t =>
    sigmoid (causalConvRaw k dil m.weightH1 m.biasH1 x n c t) *
        causalConvRaw k dil m.weightH2 m.biasH2 x n c t +
      (1 - sigmoid (causalConvRaw k dil m.weightH1 m.biasH1 x n c t)) * x n c t

/-- Modelled from the spec: `ResidualBlock1d` of `modules.py` (not among the
sources), a time-length-preserving residual block: a 'same'-padded
kernel-size-`k` convolution with a relu, plus a pointwise skip projection. -/
structure ResidualBlock1d (d_in d_out k : ℕ) where
  convWeight : Fin d_out → Fin d_in → Fin k → ℝ
  convBias : Fin d_out → ℝ
  skipWeight : Fin d_out → Fin d_in → ℝ
  skipBias : Fin d_out → ℝ

/-- Forward pass of the modelled `ResidualBlock1d`; it preserves the time
length of its input. -/
def ResidualBlock1d.forward {d_in d_out k : ℕ} (m : ResidualBlock1d d_in d_out k)
    (x : Tensor3 N d_in T) : Tensor3 N d_out T :=
  fun n c t =>
    relu (samePadConvRaw k 1 m.convWeight m.convBias x n c t) +
      ((∑ i : Fin d_in, m.skipWeight c i * x n i t) + m.skipBias c)

/-- `TextEncoder` from `networks.py` (lines 9-33): its blocks are, in order,
a 'same' 1x1 `Conv1d` with relu, a 'same' 1x1 `Conv1d` with no activation,
eight 'same' `HighwayConv1d` blocks of kernel 3 with dilations 3^i for i in
0..3 repeated twice, two 'same' `HighwayConv1d` blocks of kernel 3 and
dilation 1, and two 'same' `HighwayConv1d` blocks of kernel 1 and dilation 1.
The constructor's `d_out` parameter is unused by the source's `__init__`.
Each block is wrapped in `weight_norm`, a weight reparametrisation that is
the identity at this level of modelling. -/
structure TextEncoder (d_in d_out d_hidden : ℕ) where
  convIn : Conv1d d_in d_hidden 1
  convMid : Conv1d d_hidden d_hidden 1
  hcDil : Fin 2 → Fin 4 → HighwayConv1d d_hidden 3
  hcTwo : Fin 2 → HighwayConv1d d_hidden 3
  hcOne : Fin 2 → HighwayConv1d d_hidden 1

/-- The loop of `TextEncoder.forward`: the blocks applied in sequence,
before the final `chunk`. -/
def TextEncoder.forwardBlocks {d_in d_out d_hidden : ℕ}
    (m : TextEncoder d_in d_out d_hidden) (L : Tensor3 N d_in T) :
    Tensor3 N d_hidden T :=
  let y0 := m.convIn.forward 1 relu L
  let y1 := m.convMid.forward 1 id y0
  let y2 := (m.hcDil 0 0).forward 1 y1
  let y3 := (m.hcDil 0 1).forward 3 y2
  let y4 := (m.hcDil 0 2).forward 9 y3
  let y5 := (m.hcDil 0 3).forward 27 y4
  let y6 := (m.hcDil 1 0).forward 1 y5
  let y7 := (m.hcDil 1 1).forward 3 y6
  let y8 := (m.hcDil 1 2).forward 9 y7
  let y9 := (m.hcDil 1 3).forward 27 y8
  let y10 := (m.hcTwo 0).forward 1 y9
  let y11 := (m.hcTwo 1).forward 1 y10
  let y12 := (m.hcOne 0).forward 1 y11
  (m.hcOne 1).forward 1 y12

/-- `TextEncoder.forward` (lines 28-33): run the blocks, then
`K, V = y.chunk(2, dim=1)`. -/
def TextEncoder.forward {d_in d_out d_hidden : ℕ}
    (m : TextEncoder d_in d_out d_hidden) (L : Tensor3 N d_in T) :
    Tensor3 N ((d_hidden + 1) / 2) T × Tensor3 N (d_hidden - (d_hidden + 1) / 2) T :=
  (chunk2Fst (m.forwardBlocks L), chunk2Snd (m.forwardBlocks L))

/-- `AudioEncoder` from `networks.py` (lines 35-58): a causal 1x1 conv with
relu, two causal 1x1 convs with relu, eight `CausalHighwayConv1d` blocks of
kernel 3 with dilations 3^i for i in 0..3 repeated twice, and two final
`CausalHighwayConv1d` blocks of kernel 3 and dilation 3.  The source passes
`d_out` as the width of the two final highway blocks; a highway block keeps
its width, so `d_out` must equal `d_hidden` and the final blocks are modelled
at width `d_hidden`.  All blocks are `weight_norm`-wrapped (identity here). -/
structure AudioEncoder (d_in d_out d_hidden : ℕ) where
  hcIn : CausalConv1d d_in d_hidden 1
  hcMid : Fin 2 → CausalConv1d d_hidden d_hidden 1
  hcDil : Fin 2 → Fin 4 → CausalHighwayConv1d d_hidden 3
  hcOut : Fin 2 → CausalHighwayConv1d d_hidden 3

/-- `AudioEncoder.forward` (lines 54-58): the blocks applied in sequence. -/
def AudioEncoder.forward {d_in d_out d_hidden : ℕ}
    (m : AudioEncoder d_in d_out d_hidden) (S : Tensor3 N d_in T) :
    Tensor3 N d_hidden T :=
  let y0 := m.hcIn.forward 1 relu S
  let y1 := (m.hcMid 0).forward 1 relu y0
  let y2 := (m.hcMid 1).forward 1 relu y1
  let y3 := (m.hcDil 0 0).forward 1 y2
  let y4 := (m.hcDil 0 1).forward 3 y3
  let y5 := (m.hcDil 0 2).forward 9 y4
  let y6 := (m.hcDil 0 3).forward 27 y5
  let y7 := (m.hcDil 1 0).forward 1 y6
  let y8 := (m.hcDil 1 1).forward 3 y7
  let y9 := (m.hcDil 1 2).forward 9 y8
  let y10 := (m.hcDil 1 3).forward 27 y9
  let y11 := (m.hcOut 0).forward 3 y10
  (m.hcOut 1).forward 3 y11

/-- `DotProductAttention` from `networks.py` (lines 60-85): `d_k = d_hidden`
and three kernel-size-1 `CustomConv1d` projections. -/
structure DotProductAttention (d_hidden : ℕ) where
  linear_q : CustomConv1d d_hidden d_hidden
  linear_k : CustomConv1d d_hidden d_hidden
  linear_v : CustomConv1d d_hidden d_hidden

/-- `self.d_k = d_hidden` in the source's `__init__`. -/
def DotProductAttention.d_k {d_hidden : ℕ} (_ : DotProductAttention d_hidden) : ℕ :=
  d_hidden

/-- `DotProductAttention.forward` (lines 79-85):
tanh of the three projections, then
`A = softmax(bmm(K.transpose(1,2), Q) / sqrt(d_k), dim=1)` and
`R = bmm(V, A)`. -/
def DotProductAttention.forward {d : ℕ} (m : DotProductAttention d)
    (Q : Tensor3 N d Ty) (K : Tensor3 N d Tx) (V : Tensor3 N d Tx) :
    Tensor3 N d Ty × Tensor3 N Tx Ty :=
  let Qh := map3 Real.tanh (m.linear_q.forward Q)
  let Kh := map3 Real.tanh (m.linear_k.forward K)
  let Vh := map3 Real.tanh (m.linear_v.forward V)
  let A := softmax1 (map3 (fun r => r / Real.sqrt (m.d_k : ℝ))
    (bmm (transpose12 Kh) Qh))
  (bmm Vh A, A)

/-- `AudioDecoder` from `networks.py` (lines 87-110): a causal 1x1 conv with
relu, four `CausalHighwayConv1d` blocks of kernel 3 with dilations 3^i for
i in 0..3, two of kernel 3 and dilation 1, three causal 1x1 convs with relu,
and a final causal 1x1 conv with no activation.  All blocks are
`weight_norm`-wrapped (identity here). -/
structure AudioDecoder (d_in d_out d_hidden : ℕ) where
  hcIn : CausalConv1d d_in d_hidden 1
  hcDil : Fin 4 → CausalHighwayConv1d d_hidden 3
  hcOne : Fin 2 → CausalHighwayConv1d d_hidden 3
  hcRelu : Fin 3 → CausalConv1d d_hidden d_hidden 1
  hcFinal : CausalConv1d d_hidden d_out 1

/-- `AudioDecoder.forward` (lines 106-110): the blocks in sequence, then
`torch.sigmoid`. -/
def AudioDecoder.forward {d_in d_out d_hidden : ℕ}
    (m : AudioDecoder d_in d_out d_hidden) (R : Tensor3 N d_in T) :
    Tensor3 N d_out T :=
  let y0 := m.hcIn.forward 1 relu R
  let y1 := (m.hcDil 0).forward 1 y0
  let y2 := (m.hcDil 1).forward 3 y1
  let y3 := (m.hcDil 2).forward 9 y2
  let y4 := (m.hcDil 3).forward 27 y3
  let y5 := (m.hcOne 0).forward 1 y4
  let y6 := (m.hcOne 1).forward 1 y5
  let y7 := (m.hcRelu 0).forward 1 relu y6
  let y8 := (m.hcRelu 1).forward 1 relu y7
  let y9 := (m.hcRelu 2).forward 1 relu y8
  let y10 := m.hcFinal.forward 1 id y9
  map3 sigmoid y10

/-- Time length of `nn.Upsample(scale_factor=2)`. -/
def upsampleLen (T : ℕ) : ℕ := 2 * T

/-- Time length of the modelled `ResidualBlock1d`: unchanged. -/
def residualLen (T : ℕ) : ℕ := T

/-- Time length of `PostNet.forward`, composed layer by layer in the order
of the source's `nn.Sequential` (lines 123-129). -/
def postNetTimeLen (T : ℕ) : ℕ :=
  residualLen (residualLen (upsampleLen (residualLen (upsampleLen T))))

/-- `PostNet` from `networks.py` (lines 113-133): `nn.Sequential` of
Upsample(x2, nearest), ResidualBlock1d(d_in, d_hidden, 5), Upsample(x2,
nearest), ResidualBlock1d(d_hidden, d_hidden, 5), ResidualBlock1d(d_hidden,
d_out, 5). -/
structure PostNet (d_in d_out d_hidden : ℕ) where
  res1 : ResidualBlock1d d_in d_hidden 5
  res2 : ResidualBlock1d d_hidden d_hidden 5
  res3 : ResidualBlock1d d_hidden d_out 5

/-- `PostNet.forward` (lines 131-133): the sequential layers, then
`torch.sigmoid`. -/
def PostNet.forward {d_in d_out d_hidden : ℕ} (m : PostNet d_in d_out d_hidden)
    (x : Tensor3 N d_in T) : Tensor3 N d_out (postNetTimeLen T) :=
  map3 sigmoid (m.res3.forward (m.res2.forward (upsampleNearest2
    (m.res1.forward (upsampleNearest2 x)))))

/-- The shape of a rank-3 tensor, (N, C, T). -/
def Shape3 : Type := ℕ × ℕ × ℕ

/-- Shape rule of a kernel-size-1 convolution: batch and time kept, channel
count replaced by the layer's output width. -/
def conv1x1Shape (d_out : ℕ) (s : Shape3) : Shape3 := (s.1, d_out, s.2.2)

/-- Shape rule of an elementwise map (`torch.tanh`, scaling): unchanged. -/
def mapShape (s : Shape3) : Shape3 := s

/-- Shape rule of `x.transpose(1, 2)`. -/
def transpose12Shape (s : Shape3) : Shape3 := (s.1, s.2.2, s.2.1)

/-- Shape rule of `torch.bmm`. -/
def bmmShape (a b : Shape3) : Shape3 := (a.1, a.2.1, b.2.2)

/-- Shape rule of `torch.softmax(-, dim=1)`: unchanged. -/
def softmax1Shape (s : Shape3) : Shape3 := s

/-- The shapes of the two results of `DotProductAttention.forward`, obtained
by composing the shape rules of the ops the source applies, in the source's
order (lines 79-85). -/
def dotProductAttentionShapes (d : ℕ) (q k v : Shape3) : Shape3 × Shape3 :=
  let qs := mapShape (conv1x1Shape d q)
  let ks := mapShape (conv1x1Shape d k)
  let vs := mapShape (conv1x1Shape d v)
  let als := softmax1Shape (mapShape (bmmShape (transpose12Shape ks) qs))
  (bmmShape vs als, als)

/-- A concrete `DotProductAttention` instance of width 1 with all-zero
weights, for evaluating the theorems on concrete inputs. -/
def attnZero1 : DotProductAttention 1 :=
  ⟨⟨fun _ _ => 0, fun _ => 0⟩, ⟨fun _ _ => 0, fun _ => 0⟩, ⟨fun _ _ => 0, fun _ => 0⟩⟩

/-- The all-zero (1, 1, 1) tensor. -/
def tensorZero111 : Tensor3 1 1 1 := fun _ _ _ => 0

/-- The all-zero (1, 1, 0) tensor: a batch of one, one channel, empty time
axis. -/
def tensorZero110 : Tensor3 1 1 0 := fun _ _ _ => 0

/-- A concrete all-zero causal conv layer of width 1. -/
def ccZero (k : ℕ) : CausalConv1d 1 1 k := ⟨fun _ _ _ => 0, fun _ => 0⟩

/-- A concrete all-zero causal highway conv layer of width 1. -/
def chcZero (k : ℕ) : CausalHighwayConv1d 1 k :=
  ⟨fun _ _ _ => 0, fun _ _ _ => 0, fun _ => 0, fun _ => 0⟩

/-- A concrete all-zero 'same' conv layer of width 1. -/
def cvZero (k : ℕ) : Conv1d 1 1 k := ⟨fun _ _ _ => 0, fun _ => 0⟩

/-- A concrete all-zero 'same' highway conv layer of width 1. -/
def hcZero (k : ℕ) : HighwayConv1d 1 k :=
  ⟨fun _ _ _ => 0, fun _ _ _ => 0, fun _ => 0, fun _ => 0⟩

/-- A concrete all-zero residual block of width 1. -/
def rbZero : ResidualBlock1d 1 1 5 :=
  ⟨fun _ _ _ => 0, fun _ => 0, fun _ _ => 0, fun _ => 0⟩

/-- A concrete `TextEncoder` with all-zero weights. -/
def textEncZero : TextEncoder 1 1 1 :=
  ⟨cvZero 1, cvZero 1, fun _ _ => hcZero 3, fun _ => hcZero 3, fun _ => hcZero 1⟩

/-- A concrete `AudioEncoder` with all-zero weights. -/
def audioEncZero : AudioEncoder 1 1 1 :=
  ⟨ccZero 1, fun _ => ccZero 1, fun _ _ => chcZero 3, fun _ => chcZero 3⟩

/-- A concrete `AudioDecoder` with all-zero weights. -/
def audioDecZero : AudioDecoder 1 1 1 :=
  ⟨ccZero 1, fun _ => chcZero 3, fun _ => chcZero 3, fun _ => ccZero 1, ccZero 1⟩

/-- A concrete `PostNet` with all-zero weights. -/
def postNetZero : PostNet 1 1 1 := ⟨rbZero, rbZero, rbZero⟩

/-- The all-zero (1, 1, 2) tensor. -/
def tensorZero112 : Tensor3 1 1 2 := fun _ _ _ => 0

/-- A (1, 1, 2) tensor that is 0 at time 0 and 1 at time 1: it agrees with
`tensorZero112` up to time 0 and differs after it. -/
def tensorStep112 : Tensor3 1 1 2 := fun _ _ s => if (s : ℕ) = 0 then 0 else 1

/-- Causality of a map between (N, *, T) tensors: whenever two inputs agree
at all time steps up to and including t, the outputs agree at all time steps
up to and including t. -/
def CausalMap (f : Tensor3 N Ci T → Tensor3 N Co T) : Prop :=
  ∀ (t : ℕ) (x y : Tensor3 N Ci T),
    (∀ n c (s : Fin T), (s : ℕ) ≤ t → x n c s = y n c s) →
    ∀ n c (s : Fin T), (s : ℕ) ≤ t → f x n c s = f y n c s

theorem causalConvRaw_causalMap (k dil : ℕ) (W : Fin Co → Fin Ci → Fin k → ℝ)
    (b : Fin Co → ℝ) :
    CausalMap (fun x : Tensor3 N Ci T => causalConvRaw k dil W b x) := by
  intro t x y hxy n c s hs
  simp only [causalConvRaw]
  congr 1
  refine Finset.sum_congr rfl fun i _ => ?_
  refine Finset.sum_congr rfl fun j _ => ?_
  split
  · exact congrArg (W c i j * ·)
      (hxy n i _ (le_trans (Nat.sub_le _ _) hs))
  · rfl

theorem causalConv1d_forward_causalMap {d_in d_out k : ℕ}
    (m : CausalConv1d d_in d_out k) (dil : ℕ) (act : ℝ → ℝ) :
    CausalMap (fun x : Tensor3 N d_in T => m.forward dil act x) :=
  fun t x y hxy n c s hs =>
    congrArg act
      (causalConvRaw_causalMap k dil m.weight m.bias t x y hxy n c s hs)

theorem causalHighwayConv1d_forward_causalMap {d k : ℕ}
    (m : CausalHighwayConv1d d k) (dil : ℕ) :
    CausalMap (fun x : Tensor3 N d T => m.forward dil x) := by
  intro t x y hxy n c s hs
  have h1 := causalConvRaw_causalMap k dil m.weightH1 m.biasH1 t x y hxy n c s hs
  have h2 := causalConvRaw_causalMap k dil m.weightH2 m.biasH2 t x y hxy n c s hs
  have h3 := hxy n c s hs
  simp only [CausalHighwayConv1d.forward, h1, h2, h3]

theorem map3_causalMap (f : ℝ → ℝ) :
    CausalMap (fun x : Tensor3 N C T => map3 f x) :=
  fun _ _ _ hxy n c s hs => congrArg f (hxy n c s hs)

theorem CausalMap.comp {Cm : ℕ} {f : Tensor3 N Ci T → Tensor3 N Cm T}
    {g : Tensor3 N Cm T → Tensor3 N Co T}
    (hf : CausalMap f) (hg : CausalMap g) : CausalMap (fun x => g (f x)) :=
  fun t x y hxy => hg t (f x) (f y) (fun n c s hs => hf t x y hxy n c s hs)

theorem sigmoid_pos (r : ℝ) : 0 < sigmoid r := by
  unfold sigmoid
  positivity

theorem sigmoid_lt_one (r : ℝ) : sigmoid r < 1 := by
  unfold sigmoid
  rw [div_lt_one (by positivity)]
  have h := Real.exp_pos (-r)
  linarith

theorem softmax1_nonneg (s : Tensor3 N Tx Ty) (n : Fin N) (i : Fin Tx)
    (j : Fin Ty) : 0 ≤ softmax1 s n i j := by
  unfold softmax1
  positivity

theorem softmax1_denom_pos (s : Tensor3 N Tx Ty) (h : 0 < Tx) (n : Fin N)
    (j : Fin Ty) : 0 < ∑ k : Fin Tx, Real.exp (s n k j) :=
  Finset.sum_pos (fun _ _ => Real.exp_pos _) ⟨⟨0, h⟩, Finset.mem_univ _⟩

theorem softmax1_le_one (s : Tensor3 N Tx Ty) (h : 0 < Tx) (n : Fin N)
    (i : Fin Tx) (j : Fin Ty) : softmax1 s n i j ≤ 1 := by
  unfold softmax1
  rw [div_le_one (softmax1_denom_pos s h n j)]
  exact Finset.single_le_sum (fun k _ => (Real.exp_pos (s n k j)).le)
    (Finset.mem_univ i)

theorem softmax1_sum_eq_one (s : Tensor3 N Tx Ty) (h : 0 < Tx) (n : Fin N)
    (j : Fin Ty) : ∑ i : Fin Tx, softmax1 s n i j = 1 := by
  unfold softmax1
  rw [← Finset.sum_div]
  exact div_self (softmax1_denom_pos s h n j).ne'

/-- C1: `DotProductAttention.forward` computes scaled dot-product attention:
after tanh of a 1x1 linear projection on each of Q, K and V, the alignment
entry A[n, i, j] is the softmax over the text-time axis (dim 1) of the scaled
score (K-row i · Q-column j) / sqrt(d_k), and the result entry R[n, c, j] is
the alignment-weighted sum over text time of the projected value vectors, so
R = V · A. -/
theorem dotProductAttention_forward_formula {d : ℕ}
    (m : DotProductAttention d) (Q : Tensor3 N d Ty) (K : Tensor3 N d Tx)
    (V : Tensor3 N d Tx) :
    (∀ n i j, (m.forward Q K V).2 n i j =
      Real.exp ((∑ c : Fin d, Real.tanh (m.linear_k.forward K n c i) *
          Real.tanh (m.linear_q.forward Q n c j)) / Real.sqrt (m.d_k : ℝ)) /
        ∑ i2 : Fin Tx, Real.exp ((∑ c : Fin d,
          Real.tanh (m.linear_k.forward K n c i2) *
          Real.tanh (m.linear_q.forward Q n c j)) / Real.sqrt (m.d_k : ℝ))) ∧
    (∀ n c j, (m.forward Q K V).1 n c j =
      ∑ i : Fin Tx, Real.tanh (m.linear_v.forward V n c i) *
        (m.forward Q K V).2 n i j) :=
  ⟨fun _ _ _ => rfl, fun _ _ _ => rfl⟩

/-- C2 (counterexample): at an input whose text axis is empty (Tx = 0), the
entries of the alignment tensor summed over the text axis are 0, not 1, so
the sum-to-one part of the claim fails for this input. -/
theorem dotProductAttention_alignment_sum_counterexample :
    (∑ i : Fin 0,
      (DotProductAttention.forward attnZero1 tensorZero111
        tensorZero110 tensorZero110).2 0 i 0) ≠ 1 := by
  simp

/-- C2 (amended): for every input whose text axis is nonempty (Tx ≥ 1), the
alignment tensor A returned by `DotProductAttention.forward` is a softmax
over the text-time axis: every entry of A lies in [0, 1] and, for each batch
index and each audio time step, the entries of A summed over the text axis
(dim 1) equal 1. -/
theorem dotProductAttention_alignment_is_softmax {d : ℕ}
    (m : DotProductAttention d) (Q : Tensor3 N d Ty) (K : Tensor3 N d Tx)
    (V : Tensor3 N d Tx) (h : 0 < Tx) :
    (∀ n i j, 0 ≤ (m.forward Q K V).2 n i j ∧ (m.forward Q K V).2 n i j ≤ 1) ∧
    (∀ n j, ∑ i : Fin Tx, (m.forward Q K V).2 n i j = 1) :=
  ⟨fun n i j => ⟨softmax1_nonneg _ n i j, softmax1_le_one _ h n i j⟩,
   fun n j => softmax1_sum_eq_one _ h n j⟩

/-- Witness for the amended C2 at a concrete input: width 1, all-zero
weights and inputs, Tx = Ty = 1. -/
theorem dotProductAttention_alignment_is_softmax_witness :
    0 < 1 ∧ (∑ i : Fin 1,
      (DotProductAttention.forward attnZero1 tensorZero111 tensorZero111
        tensorZero111).2 0 i 0) = 1 :=
  ⟨by decide,
   (dotProductAttention_alignment_is_softmax attnZero1 tensorZero111
     tensorZero111 tensorZero111 (by decide)).2 0 0⟩

/-- C6: shape invariant of `DotProductAttention.forward`: composing the
shape rules of the ops the source applies, a Q of shape (N, d, Ty) and K, V
of shape (N, d, Tx), with the channel count equal to d_hidden, produce an R
of shape (N, d, Ty) and an A of shape (N, Tx, Ty). -/
theorem dotProductAttention_shapes (N Tx Ty d : ℕ) :
    dotProductAttentionShapes d (N, d, Ty) (N, d, Tx) (N, d, Tx) =
      ((N, d, Ty), (N, Tx, Ty)) :=
  rfl

/-- C3: `AudioEncoder.forward` and `AudioDecoder.forward` are causal in the
time axis: for every pair of inputs that agree at all time steps up to and
including t, the outputs agree at all time steps up to and including t,
because every block is a causal convolution or a causal highway convolution
(and the decoder's final elementwise sigmoid is pointwise in time). -/
theorem audioEncoder_audioDecoder_causal {a1 a2 a3 b1 b2 b3 : ℕ}
    (mE : AudioEncoder a1 a2 a3) (mD : AudioDecoder b1 b2 b3) :
    CausalMap (fun S : Tensor3 N a1 T => mE.forward S) ∧
    CausalMap (fun R : Tensor3 N b1 T => mD.forward R) := by
  constructor
  · exact ((((((((((((causalConv1d_forward_causalMap mE.hcIn 1 relu).comp
      (causalConv1d_forward_causalMap (mE.hcMid 0) 1 relu)).comp
      (causalConv1d_forward_causalMap (mE.hcMid 1) 1 relu)).comp
      (causalHighwayConv1d_forward_causalMap (mE.hcDil 0 0) 1)).comp
      (causalHighwayConv1d_forward_causalMap (mE.hcDil 0 1) 3)).comp
      (causalHighwayConv1d_forward_causalMap (mE.hcDil 0 2) 9)).comp
      (causalHighwayConv1d_forward_causalMap (mE.hcDil 0 3) 27)).comp
      (causalHighwayConv1d_forward_causalMap (mE.hcDil 1 0) 1)).comp
      (causalHighwayConv1d_forward_causalMap (mE.hcDil 1 1) 3)).comp
      (causalHighwayConv1d_forward_causalMap (mE.hcDil 1 2) 9)).comp
      (causalHighwayConv1d_forward_causalMap (mE.hcDil 1 3) 27)).comp
      (causalHighwayConv1d_forward_causalMap (mE.hcOut 0) 3)).comp
      (causalHighwayConv1d_forward_causalMap (mE.hcOut 1) 3)
  · exact (((((((((((causalConv1d_forward_causalMap mD.hcIn 1 relu).comp
      (causalHighwayConv1d_forward_causalMap (mD.hcDil 0) 1)).comp
      (causalHighwayConv1d_forward_causalMap (mD.hcDil 1) 3)).comp
      (causalHighwayConv1d_forward_causalMap (mD.hcDil 2) 9)).comp
      (causalHighwayConv1d_forward_causalMap (mD.hcDil 3) 27)).comp
      (causalHighwayConv1d_forward_causalMap (mD.hcOne 0) 1)).comp
      (causalHighwayConv1d_forward_causalMap (mD.hcOne 1) 1)).comp
      (causalConv1d_forward_causalMap (mD.hcRelu 0) 1 relu)).comp
      (causalConv1d_forward_causalMap (mD.hcRelu 1) 1 relu)).comp
      (causalConv1d_forward_causalMap (mD.hcRelu 2) 1 relu)).comp
      (causalConv1d_forward_causalMap mD.hcFinal 1 id)).comp
      (map3_causalMap sigmoid)

/-- Witness for C3 at a concrete input: all-zero modules of width 1 on
(1, 1, 2) tensors that agree at time 0 and differ at time 1; the outputs
agree at time 0. -/
theorem audioEncoder_audioDecoder_causal_witness :
    (∀ n c (s : Fin 2), (s : ℕ) ≤ 0 → tensorZero112 n c s = tensorStep112 n c s) ∧
    AudioEncoder.forward audioEncZero tensorZero112 0 0 0 =
      AudioEncoder.forward audioEncZero tensorStep112 0 0 0 ∧
    AudioDecoder.forward audioDecZero tensorZero112 0 0 0 =
      AudioDecoder.forward audioDecZero tensorStep112 0 0 0 := by
  have hagree : ∀ n c (s : Fin 2), (s : ℕ) ≤ 0 →
      tensorZero112 n c s = tensorStep112 n c s := by
    intro n c s hs
    have hs0 : (s : ℕ) = 0 := Nat.le_zero.mp hs
    simp [tensorZero112, tensorStep112, hs0]
  have h := @audioEncoder_audioDecoder_causal 1 2 1 1 1 1 1 1 audioEncZero audioDecZero
  exact ⟨hagree,
    h.1 0 tensorZero112 tensorStep112 hagree 0 0 0 (by decide),
    h.2 0 tensorZero112 tensorStep112 hagree 0 0 0 (by decide)⟩

/-- C4: `PostNet.forward` upsamples time by four: the composed time length
of its `nn.Sequential` layers (two nearest-neighbour Upsample layers of
scale factor 2 interleaved with time-length-preserving residual blocks) is
exactly 4*T for an input of time length T, and each Upsample layer reads
input time step t / 2 at output time step t. -/
theorem postNet_upsamples_time_by_four {d_in d_out d_hidden : ℕ} :
    postNetTimeLen T = 4 * T ∧
    (∀ (x : Tensor3 N C T) n c (t : Fin (2 * T)),
      upsampleNearest2 x n c t = x n c ⟨(t : ℕ) / 2, by have := t.isLt; omega⟩) ∧
    (∀ (m : PostNet d_in d_out d_hidden) (x : Tensor3 N d_in T),
      m.forward x = map3 sigmoid (m.res3.forward (m.res2.forward
        (upsampleNearest2 (m.res1.forward (upsampleNearest2 x)))))) := by
  refine ⟨?_, fun x n c t => rfl, fun m x => rfl⟩
  unfold postNetTimeLen residualLen upsampleLen
  ring

/-- C5: each of the five forward passes is a straight-line composition of
its layer primitives, applied in the order the source builds them; the text
encoder ends with the `chunk` split, the attention composes projections,
softmax and batched matrix products, and the decoder and postnet end with an
elementwise sigmoid. -/
theorem networks_straight_line_composition
    {a1 a2 a3 b1 b2 b3 c1 c2 c3 e1 e2 e3 d : ℕ}
    (mT : TextEncoder a1 a2 a3) (L : Tensor3 N a1 T)
    (mA : AudioEncoder b1 b2 b3) (S : Tensor3 N b1 T)
    (mP : DotProductAttention d) (Q : Tensor3 N d Ty)
    (K : Tensor3 N d Tx) (V : Tensor3 N d Tx)
    (mD : AudioDecoder c1 c2 c3) (R : Tensor3 N c1 T)
    (mN : PostNet e1 e2 e3) (x : Tensor3 N e1 T) :
    (mT.forward L =
      (chunk2Fst (mT.forwardBlocks L), chunk2Snd (mT.forwardBlocks L))) ∧
    (mT.forwardBlocks L = (mT.hcOne 1).forward 1 ((mT.hcOne 0).forward 1
      ((mT.hcTwo 1).forward 1 ((mT.hcTwo 0).forward 1
      ((mT.hcDil 1 3).forward 27 ((mT.hcDil 1 2).forward 9
      ((mT.hcDil 1 1).forward 3 ((mT.hcDil 1 0).forward 1
      ((mT.hcDil 0 3).forward 27 ((mT.hcDil 0 2).forward 9
      ((mT.hcDil 0 1).forward 3 ((mT.hcDil 0 0).forward 1
      (mT.convMid.forward 1 id
        (mT.convIn.forward 1 relu L)))))))))))))) ∧
    (mA.forward S = (mA.hcOut 1).forward 3 ((mA.hcOut 0).forward 3
      ((mA.hcDil 1 3).forward 27 ((mA.hcDil 1 2).forward 9
      ((mA.hcDil 1 1).forward 3 ((mA.hcDil 1 0).forward 1
      ((mA.hcDil 0 3).forward 27 ((mA.hcDil 0 2).forward 9
      ((mA.hcDil 0 1).forward 3 ((mA.hcDil 0 0).forward 1
      ((mA.hcMid 1).forward 1 relu ((mA.hcMid 0).forward 1 relu
      (mA.hcIn.forward 1 relu S))))))))))))) ∧
    (mP.forward Q K V =
      (bmm (map3 Real.tanh (mP.linear_v.forward V))
        (softmax1 (map3 (fun r => r / Real.sqrt (mP.d_k : ℝ))
          (bmm (transpose12 (map3 Real.tanh (mP.linear_k.forward K)))
            (map3 Real.tanh (mP.linear_q.forward Q))))),
       softmax1 (map3 (fun r => r / Real.sqrt (mP.d_k : ℝ))
          (bmm (transpose12 (map3 Real.tanh (mP.linear_k.forward K)))
            (map3 Real.tanh (mP.linear_q.forward Q)))))) ∧
    (mD.forward R = map3 sigmoid (mD.hcFinal.forward 1 id
      ((mD.hcRelu 2).forward 1 relu ((mD.hcRelu 1).forward 1 relu
      ((mD.hcRelu 0).forward 1 relu ((mD.hcOne 1).forward 1
      ((mD.hcOne 0).forward 1 ((mD.hcDil 3).forward 27
      ((mD.hcDil 2).forward 9 ((mD.hcDil 1).forward 3
      ((mD.hcDil 0).forward 1
        (mD.hcIn.forward 1 relu R)))))))))))) ∧
    (mN.forward x = map3 sigmoid (mN.res3.forward (mN.res2.forward
      (upsampleNearest2 (mN.res1.forward (upsampleNearest2 x)))))) :=
  ⟨rfl, rfl, rfl, rfl, rfl, rfl⟩

/-- C8: with an even hidden width d_hidden = 2*half, `TextEncoder.forward`
splits the final block output into two equal halves along the channel axis:
both chunks have half = d_hidden/2 channels, the first chunk K reads the
first half of the channels and the second chunk V reads the second half. -/
theorem textEncoder_chunk_split {d_in d_out : ℕ} (half : ℕ)
    (m : TextEncoder d_in d_out (2 * half)) (L : Tensor3 N d_in T) :
    ((2 * half + 1) / 2 = half) ∧
    (2 * half - (2 * half + 1) / 2 = half) ∧
    (∀ n (c : Fin ((2 * half + 1) / 2)) t, (m.forward L).1 n c t =
      m.forwardBlocks L n ⟨(c : ℕ), by have := c.isLt; omega⟩ t) ∧
    (∀ n (c : Fin (2 * half - (2 * half + 1) / 2)) t, (m.forward L).2 n c t =
      m.forwardBlocks L n
        ⟨(2 * half + 1) / 2 + (c : ℕ), by have := c.isLt; omega⟩ t) :=
  ⟨by omega, by omega, fun _ _ _ => rfl, fun _ _ _ => rfl⟩

/-- C9: every element returned by `AudioDecoder.forward` and every element
returned by `PostNet.forward` lies strictly between 0 and 1, because both
forward passes end with an elementwise sigmoid. -/
theorem decoder_postnet_output_in_unit_interval
    {a1 a2 a3 e1 e2 e3 : ℕ}
    (mD : AudioDecoder a1 a2 a3) (R : Tensor3 N a1 T)
    (n : Fin N) (c : Fin a2) (t : Fin T)
    (mN : PostNet e1 e2 e3) (x : Tensor3 N e1 T)
    (n2 : Fin N) (c2 : Fin e2) (t2 : Fin (postNetTimeLen T)) :
    (0 < mD.forward R n c t ∧ mD.forward R n c t < 1) ∧
    (0 < mN.forward x n2 c2 t2 ∧ mN.forward x n2 c2 t2 < 1) :=
  ⟨⟨sigmoid_pos _, sigmoid_lt_one _⟩, ⟨sigmoid_pos _, sigmoid_lt_one _⟩⟩

/-- C10: every forward pass is a pure function of its input tensors and its
parameters: two calls with equal parameters and equal inputs return equal
outputs. -/
theorem forwards_deterministic
    {a1 a2 a3 b1 b2 b3 c1 c2 c3 e1 e2 e3 d : ℕ}
    (mT mT2 : TextEncoder a1 a2 a3) (hT : mT = mT2)
    (L L2 : Tensor3 N a1 T) (hL : L = L2)
    (mA mA2 : AudioEncoder b1 b2 b3) (hA : mA = mA2)
    (S S2 : Tensor3 N b1 T) (hS : S = S2)
    (mP mP2 : DotProductAttention d) (hP : mP = mP2)
    (Q Q2 : Tensor3 N d Ty) (hQ : Q = Q2)
    (K K2 : Tensor3 N d Tx) (hK : K = K2)
    (V V2 : Tensor3 N d Tx) (hV : V = V2)
    (mD mD2 : AudioDecoder c1 c2 c3) (hD : mD = mD2)
    (R R2 : Tensor3 N c1 T) (hR : R = R2)
    (mN mN2 : PostNet e1 e2 e3) (hN : mN = mN2)
    (x x2 : Tensor3 N e1 T) (hx : x = x2) :
    mT.forward L = mT2.forward L2 ∧
    mA.forward S = mA2.forward S2 ∧
    mP.forward Q K V = mP2.forward Q2 K2 V2 ∧
    mD.forward R = mD2.forward R2 ∧
    mN.forward x = mN2.forward x2 := by
  subst hT hL hA hS hP hQ hK hV hD hR hN hx
  exact ⟨rfl, rfl, rfl, rfl, rfl⟩

/-- Witness for C10 at concrete all-zero modules of width 1 and all-zero
(1, 1, 1) inputs. -/
theorem forwards_deterministic_witness :
    TextEncoder.forward textEncZero tensorZero111 =
      TextEncoder.forward textEncZero tensorZero111 ∧
    AudioEncoder.forward audioEncZero tensorZero111 =
      AudioEncoder.forward audioEncZero tensorZero111 ∧
    DotProductAttention.forward attnZero1 tensorZero111 tensorZero111
        tensorZero111 =
      DotProductAttention.forward attnZero1 tensorZero111 tensorZero111
        tensorZero111 ∧
    AudioDecoder.forward audioDecZero tensorZero111 =
      AudioDecoder.forward audioDecZero tensorZero111 ∧
    PostNet.forward postNetZero tensorZero111 =
      PostNet.forward postNetZero tensorZero111 :=
  forwards_deterministic textEncZero textEncZero rfl
    tensorZero111 tensorZero111 rfl
    audioEncZero audioEncZero rfl tensorZero111 tensorZero111 rfl
    attnZero1 attnZero1 rfl tensorZero111 tensorZero111 rfl
    tensorZero111 tensorZero111 rfl tensorZero111 tensorZero111 rfl
    audioDecZero audioDecZero rfl tensorZero111 tensorZero111 rfl
    postNetZero postNetZero rfl tensorZero111 tensorZero111 rfl
